import Mathlib

/-!
Verification of the unkani_server specification claims.

The repository is a Flask application.  The source tree available here holds
the FHIR ValueSet route (`app/fhir/routes/valueset.py`), the extensions
module, and the unit tests.  The User / Role / AppGroup / Address model code
(`app/user/models/user.py` etc.) is part of the repository but is not in the
tree, so those operations are modelled from the specification's words and the
behaviour its tests describe; each such definition says so in its doc
comment.  The route handler `get_valueset` is embedded from the source.
-/

/- ---------------------------------------------------------------- -/
/- Password hashing                                                  -/
/- ---------------------------------------------------------------- -/

/-- Deterministic encoding of a password string into a natural number,
standing in for the digest computation of the underlying hash primitive. -/
def strEncode (s : String) : Nat :=
  s.foldl (fun a c => a * 1114112 + c.toNat + 1) 0

/-- A stored password hash: the salt is recorded alongside the digest, and
the digest depends on both the salt and the password. -/
structure PwHash where
  salt : Nat
  digest : Nat
deriving DecidableEq, Repr

/-- Modelled from the spec: "hashing the same p twice with different users
yields different stored hashes (random salting)".  The salt is an explicit
parameter; the randomness of the salt source is expressed in theorems as the
hypothesis that two independent draws differ. -/
def hashPassword (salt : Nat) (p : String) : PwHash :=
  { salt := salt, digest := Nat.pair salt (strEncode p) }

/-- Modelled from the spec: verification recomputes the digest from the
stored salt and the candidate password. -/
def checkPwHash (h : PwHash) (p : String) : Bool :=
  h.digest == Nat.pair h.salt (strEncode p)

/- ---------------------------------------------------------------- -/
/- Roles, app groups, addresses                                      -/
/- ---------------------------------------------------------------- -/

/-- A Role record.  `default` mirrors the `default=true` flag of the spec. -/
structure Role where
  id : Nat
  name : String
  default : Bool
deriving DecidableEq, Repr

/-- An AppGroup record with its `default` flag. -/
structure AppGroup where
  id : Nat
  name : String
  default : Bool
deriving DecidableEq, Repr

/-- An Address record with the `primary` and `active` flags the accessor
filters on. -/
structure Address where
  address1 : String
  city : String
  state : String
  primary : Bool
  active : Bool
deriving DecidableEq, Repr

/-- Modelled from the spec: `Role.initialize_roles` (model code not in the
tree) creates the roles named Admin, Super Admin and User, with the User role
flagged as the default. -/
def initialize_roles : List Role :=
  [ { id := 1, name := "User", default := true },
    { id := 2, name := "Admin", default := false },
    { id := 3, name := "Super Admin", default := false } ]

/-- Modelled from the spec: `AppGroup.initialize_app_groups` (model code not
in the tree) creates the application groups, exactly one of which is flagged
as the default. -/
def initialize_app_groups : List AppGroup :=
  [ { id := 1, name := "Unkani", default := true },
    { id := 2, name := "Admin", default := false } ]

/- ---------------------------------------------------------------- -/
/- Tokens                                                            -/
/- ---------------------------------------------------------------- -/

/-- The two kinds of signed tokens the user model issues. -/
inductive TokenKind
  | confirmKind
  | resetKind
deriving DecidableEq, Repr

/-- Modelled from the spec: "generate a signed, time-limited token bound to a
user id".  `sigValid` records whether the signature verifies against the
application secret; tokens produced by the generators carry a valid
signature.  Times are in seconds. -/
structure Token where
  kind : TokenKind
  userId : Nat
  issuedAt : Nat
  expiration : Nat
  sigValid : Bool
deriving DecidableEq, Repr

/-- Modelled from the spec: "verify signature and expiry on redemption".  A
token is valid at time `now` when its signature verifies and its age does not
exceed its expiration window. -/
def token_valid (t : Token) (now : Nat) : Bool :=
  t.sigValid && now ≤ t.issuedAt + t.expiration

/- ---------------------------------------------------------------- -/
/- Users                                                             -/
/- ---------------------------------------------------------------- -/

/-- The User record, with the fields the claims exercise. -/
structure User where
  id : Nat
  password_hash : Option PwHash
  last_password_hash : Option PwHash
  confirmed : Bool
  role : Option Role
  app_groups : List AppGroup
  addresses : List Address
deriving DecidableEq, Repr

/-- Modelled from the spec: the password setter stores a fresh salted hash
and saves the previous hash so the old password can still be verified. -/
def set_password (u : User) (salt : Nat) (p : String) : User :=
  { u with last_password_hash := u.password_hash,
           password_hash := some (hashPassword salt p) }

/-- Modelled from the spec: verify a candidate password against the stored
hash; false when no password is set. -/
def verify_password (u : User) (p : String) : Bool :=
  match u.password_hash with
  | some h => checkPwHash h p
  | none => false

/-- Modelled from the spec: verify a candidate password against the saved
previous hash. -/
def verify_last_password (u : User) (p : String) : Bool :=
  match u.last_password_hash with
  | some h => checkPwHash h p
  | none => false

/-- Modelled from the spec: issue a confirmation token bound to the user's
id, signed, issued at `now`, expiring after `expiration` seconds. -/
def generate_confirmation_token (u : User) (now expiration : Nat) : Token :=
  { kind := TokenKind.confirmKind, userId := u.id, issuedAt := now,
    expiration := expiration, sigValid := true }

/-- Modelled from the spec: issue a password-reset token bound to the user's
id. -/
def generate_reset_token (u : User) (now expiration : Nat) : Token :=
  { kind := TokenKind.resetKind, userId := u.id, issuedAt := now,
    expiration := expiration, sigValid := true }

/-- Modelled from the spec: redeem a confirmation token.  Failure (missing
token, bad signature, expiry, wrong kind, or a token bound to another user's
id) is signalled by a `false` return value with the user unchanged, never by
an exception; success marks the user confirmed. -/
def User.confirm (u : User) (tok : Option Token) (now : Nat) : Bool × User :=
  match tok with
  | none => (false, u)
  | some t =>
    if token_valid t now && t.kind == TokenKind.confirmKind && t.userId == u.id
    then (true, { u with confirmed := true })
    else (false, u)

/-- Modelled from the spec: redeem a password-reset token.  On any failure
the result is `false` and the user is returned unchanged; on success the
password is set to the new value (with a fresh salt). -/
def reset_password (u : User) (tok : Option Token) (newPw : String)
    (salt now : Nat) : Bool × User :=
  match tok with
  | none => (false, u)
  | some t =>
    if token_valid t now && t.kind == TokenKind.resetKind && t.userId == u.id
    then (true, set_password u salt newPw)
    else (false, u)

/-- Modelled from the spec: the "current address" accessor returns the
attached address flagged both primary and active, mirroring a
`filter_by(primary=True, active=True).first()` lookup. -/
def User.address (u : User) : Option Address :=
  u.addresses.find? (fun a => a.primary && a.active)

/- ---------------------------------------------------------------- -/
/- User construction with role / app-group fallback                  -/
/- ---------------------------------------------------------------- -/

/-- The role argument accepted by the User initializer: absent, an integer
id, or a Role object. -/
inductive RoleArg
  | noneArg
  | byId (i : Nat)
  | byObj (r : Role)
deriving Repr

/-- The app-group argument accepted by the User initializer. -/
inductive AppGroupArg
  | noneArg
  | byId (i : Nat)
  | byObj (g : AppGroup)
deriving Repr

/-- Modelled from the spec: resolve the role argument.  An integer id is
looked up; when it matches no record, or when no role was given, the record
flagged `default=true` (a `filter_by(default=True).first()` lookup) is
substituted. -/
def resolve_role (roles : List Role) : RoleArg → Option Role
  | RoleArg.noneArg => roles.find? (fun r => r.default)
  | RoleArg.byId i =>
    match roles.find? (fun r => r.id == i) with
    | some r => some r
    | none => roles.find? (fun r => r.default)
  | RoleArg.byObj r => some r

/-- Modelled from the spec: resolve the app-group argument into the user's
app-group list, with the same default-fallback policy as roles. -/
def resolve_app_group (gs : List AppGroup) : AppGroupArg → List AppGroup
  | AppGroupArg.noneArg =>
    match gs.find? (fun g => g.default) with
    | some g => [g]
    | none => []
  | AppGroupArg.byId i =>
    match gs.find? (fun g => g.id == i) with
    | some g => [g]
    | none =>
      match gs.find? (fun g => g.default) with
      | some g => [g]
      | none => []
  | AppGroupArg.byObj g => [g]

/-- The database state the user model operates over. -/
structure Db where
  roles : List Role
  app_groups : List AppGroup
  users : List User
deriving Repr

/-- Modelled from the spec: the User initializer.  The role and app-group
arguments are resolved with default fallback; the new user starts
unconfirmed with no addresses, and is appended to the user table.  The role
and app-group tables are not modified. -/
def create_user (db : Db) (uid salt : Nat) (pw : Option String)
    (role : RoleArg) (app_group : AppGroupArg) : User × Db :=
  let u : User :=
    { id := uid,
      password_hash := pw.map (hashPassword salt),
      last_password_hash := none,
      confirmed := false,
      role := resolve_role db.roles role,
      app_groups := resolve_app_group db.app_groups app_group,
      addresses := [] }
  (u, { db with users := db.users ++ [u] })

/- ---------------------------------------------------------------- -/
/- FHIR ValueSet route (embedded from src/app/fhir/routes/valueset.py) -/
/- ---------------------------------------------------------------- -/

/-- A ValueSet record; `fhir_json` stands for the document produced by
`dump_fhir_json()` (the ValueSet model code is not in the tree). -/
structure ValueSet where
  resource_id : String
  fhir_json : String
deriving DecidableEq, Repr

/-- An HTTP response: status code, optional JSON body, optional Location
header. -/
structure HttpResponse where
  status_code : Nat
  body : Option String
  location : Option String
deriving DecidableEq, Repr

/-- `url_for('fhir.get_valueset', resource_id=...)`: the resource's own URL
under the blueprint route `fhir/ValueSet/<resource_id>`. -/
def url_for_get_valueset (rid : String) : String :=
  "/fhir/ValueSet/" ++ rid

/-- Embedded from `get_valueset` in src/app/fhir/routes/valueset.py: after
token authentication (modelled by the `authed` flag; `login_required`
rejects unauthenticated requests with 401), the handler looks the ValueSet
up by `resource_id`; `first_or_404` aborts with 404 when the query is empty,
otherwise the handler returns 200 with the resource's FHIR JSON and a
Location header pointing at the resource's own URL. -/
def get_valueset (store : List ValueSet) (authed : Bool)
    (resource_id : String) : HttpResponse :=
  if !authed then { status_code := 401, body := none, location := none }
  else
    match store.find? (fun v => v.resource_id == resource_id) with
    | some v =>
      { status_code := 200, body := some v.fhir_json,
        location := some (url_for_get_valueset v.resource_id) }
    | none => { status_code := 404, body := none, location := none }

/- ---------------------------------------------------------------- -/
/- Concrete records used by witnesses                                -/
/- ---------------------------------------------------------------- -/

/-- A concrete user with id 1, as in the tests' `u1 = User(password='cat')`. -/
def userA : User :=
  { id := 1, password_hash := some (hashPassword 0 "cat"),
    last_password_hash := none, confirmed := false, role := none,
    app_groups := [], addresses := [] }

/-- A concrete user with id 2, as in the tests' `u2 = User(password='dog')`. -/
def userB : User :=
  { id := 2, password_hash := some (hashPassword 1 "dog"),
    last_password_hash := none, confirmed := false, role := none,
    app_groups := [], addresses := [] }

/- ---------------------------------------------------------------- -/
/- Theorems                                                          -/
/- ---------------------------------------------------------------- -/

/-- C1: a confirmation or password-reset token generated for user A never
validates when redeemed against a distinct user B: both redemptions return
false and leave B unchanged (so B stays unconfirmed and B's password hash is
untouched). -/
theorem cross_user_token_rejected (a b : User) (now now2 exp salt : Nat)
    (newPw : String) (h : a.id ≠ b.id) :
    User.confirm b (some (generate_confirmation_token a now exp)) now2 = (false, b) ∧
    reset_password b (some (generate_reset_token a now exp)) newPw salt now2 = (false, b) := by
  have hb : (a.id == b.id) = false := by simpa using h
  constructor <;>
    simp [User.confirm, reset_password, generate_confirmation_token,
      generate_reset_token, token_valid, hb]

/-- Witness for C1 at the concrete users of the tests. -/
theorem cross_user_token_rejected_witness :
    User.confirm userB (some (generate_confirmation_token userA 0 3600)) 0 = (false, userB) ∧
    reset_password userB (some (generate_reset_token userA 0 3600)) "horse" 7 0 = (false, userB) :=
  cross_user_token_rejected userA userB 0 0 3600 7 "horse" (by decide)

/-- C4: setting the same password on two users with independently drawn
(hence distinct) salts stores two unequal password hashes: the hash is not
deterministic in the password alone. -/
theorem password_salts_are_random (u1 u2 : User) (p : String) (s1 s2 : Nat)
    (h : s1 ≠ s2) :
    (set_password u1 s1 p).password_hash ≠ (set_password u2 s2 p).password_hash := by
  simp [set_password, hashPassword, h]

/-- Witness for C4 at password "cat" and salts 0 and 1. -/
theorem password_salts_are_random_witness :
    (set_password userA 0 "cat").password_hash ≠ (set_password userB 1 "cat").password_hash :=
  password_salts_are_random userA userB "cat" 0 1 (by decide)

/-- C5: a confirmation token issued at time t with a 1-second expiry fails
validation when redeemed at time t + 2; the failure is a false return value
(the redemption function is total) with the user unchanged. -/
theorem expired_confirmation_token (u : User) (t : Nat) :
    User.confirm u (some (generate_confirmation_token u t 1)) (t + 2) = (false, u) := by
  simp [User.confirm, generate_confirmation_token, token_valid]

/-- C9: reset_password is atomic on failure: redeeming a reset token issued
for a different user, or a missing (None) token, returns false and leaves
the user unchanged, so every password that verified before still verifies
afterwards. -/
theorem reset_password_atomic_on_failure (a b : User) (now now2 exp salt : Nat)
    (newPw : String) (h : a.id ≠ b.id) :
    reset_password b (some (generate_reset_token a now exp)) newPw salt now2 = (false, b) ∧
    reset_password b none newPw salt now2 = (false, b) ∧
    ∀ p, verify_password
        (reset_password b (some (generate_reset_token a now exp)) newPw salt now2).snd p
      = verify_password b p := by
  have hb : (a.id == b.id) = false := by simpa using h
  refine ⟨?_, rfl, ?_⟩ <;>
    simp [reset_password, generate_reset_token, token_valid, hb]

/-- Witness for C9 at the concrete users of the tests. -/
theorem reset_password_atomic_on_failure_witness :
    reset_password userB (some (generate_reset_token userA 0 3600)) "horse" 7 0 = (false, userB) ∧
    reset_password userB none "horse" 7 0 = (false, userB) ∧
    ∀ p, verify_password
        (reset_password userB (some (generate_reset_token userA 0 3600)) "horse" 7 0).snd p
      = verify_password userB p :=
  reset_password_atomic_on_failure userA userB 0 0 3600 7 "horse" (by decide)

/-- C10: changing a user's password from p1 to p2 keeps the previous hash:
the new password verifies and the old password verifies against the saved
last hash. -/
theorem last_password_is_saved (u : User) (p1 p2 : String) (s1 s2 : Nat) :
    verify_password (set_password (set_password u s1 p1) s2 p2) p2 = true ∧
    verify_last_password (set_password (set_password u s1 p1) s2 p2) p1 = true := by
  constructor <;>
    simp [verify_password, verify_last_password, set_password, hashPassword, checkPwHash]

/-- C2: constructing a User with a role or app-group argument equal to an
integer id that matches no existing record assigns the record flagged
default=true for that type instead of failing, and the assigned record's id
differs from the invalid id. -/
theorem invalid_id_falls_back_to_default (db : Db) (uid salt i j : Nat)
    (pw : Option String) (r0 : Role) (g0 : AppGroup)
    (hri : ∀ r ∈ db.roles, r.id ≠ i)
    (hgj : ∀ g ∈ db.app_groups, g.id ≠ j)
    (hr0 : db.roles.find? (fun r => r.default) = some r0)
    (hg0 : db.app_groups.find? (fun g => g.default) = some g0) :
    (create_user db uid salt pw (RoleArg.byId i) (AppGroupArg.byId j)).fst.role = some r0 ∧
    r0.id ≠ i ∧
    (create_user db uid salt pw (RoleArg.byId i) (AppGroupArg.byId j)).fst.app_groups = [g0] ∧
    g0.id ≠ j := by
  have hfr : db.roles.find? (fun r => r.id == i) = none := by
    apply List.find?_eq_none.mpr
    intro r hr
    simpa using hri r hr
  have hfg : db.app_groups.find? (fun g => g.id == j) = none := by
    apply List.find?_eq_none.mpr
    intro g hg
    simpa using hgj g hg
  refine ⟨?_, ?_, ?_, ?_⟩
  · simp [create_user, resolve_role, hfr, hr0]
  · exact hri r0 (List.mem_of_find?_eq_some hr0)
  · simp [create_user, resolve_app_group, hfg, hg0]
  · exact hgj g0 (List.mem_of_find?_eq_some hg0)

/-- Witness for C2: with the initialized role and app-group tables, id 99
matches nothing and the default records (role "User", group "Unkani") are
assigned. -/
theorem invalid_id_falls_back_to_default_witness :
    (create_user ⟨initialize_roles, initialize_app_groups, []⟩ 10 0 none
        (RoleArg.byId 99) (AppGroupArg.byId 99)).fst.role
      = some { id := 1, name := "User", default := true } ∧
    ({ id := 1, name := "User", default := true } : Role).id ≠ 99 ∧
    (create_user ⟨initialize_roles, initialize_app_groups, []⟩ 10 0 none
        (RoleArg.byId 99) (AppGroupArg.byId 99)).fst.app_groups
      = [{ id := 1, name := "Unkani", default := true }] ∧
    ({ id := 1, name := "Unkani", default := true } : AppGroup).id ≠ 99 :=
  invalid_id_falls_back_to_default ⟨initialize_roles, initialize_app_groups, []⟩
    10 0 99 99 none _ _ (by decide) (by decide) rfl rfl

/-- C3: constructing a User with no explicit role and no explicit app-group
assigns the Role record flagged default=true and the AppGroup record flagged
default=true. -/
theorem absent_args_assign_default (db : Db) (uid salt : Nat) (pw : Option String)
    (r0 : Role) (g0 : AppGroup)
    (hr0 : db.roles.find? (fun r => r.default) = some r0)
    (hg0 : db.app_groups.find? (fun g => g.default) = some g0) :
    (create_user db uid salt pw RoleArg.noneArg AppGroupArg.noneArg).fst.role = some r0 ∧
    r0.default = true ∧
    (create_user db uid salt pw RoleArg.noneArg AppGroupArg.noneArg).fst.app_groups = [g0] ∧
    g0.default = true := by
  refine ⟨by simp [create_user, resolve_role, hr0], ?_,
    by simp [create_user, resolve_app_group, hg0], ?_⟩
  · simpa using List.find?_some hr0
  · simpa using List.find?_some hg0

/-- Witness for C3 with the initialized tables. -/
theorem absent_args_assign_default_witness :
    (create_user ⟨initialize_roles, initialize_app_groups, []⟩ 10 0 none
        RoleArg.noneArg AppGroupArg.noneArg).fst.role
      = some { id := 1, name := "User", default := true } ∧
    ({ id := 1, name := "User", default := true } : Role).default = true ∧
    (create_user ⟨initialize_roles, initialize_app_groups, []⟩ 10 0 none
        RoleArg.noneArg AppGroupArg.noneArg).fst.app_groups
      = [{ id := 1, name := "Unkani", default := true }] ∧
    ({ id := 1, name := "Unkani", default := true } : AppGroup).default = true :=
  absent_args_assign_default ⟨initialize_roles, initialize_app_groups, []⟩
    10 0 none _ _ rfl rfl

/-- C6: on a user whose attached addresses are exactly [a], the current
address accessor returns a precisely when a is flagged primary and active,
and flipping the primary flag to false makes the accessor return none. -/
theorem address_accessor_primary_active (u : User) (a : Address)
    (h : u.addresses = [a]) :
    (u.address = some a ↔ (a.primary = true ∧ a.active = true)) ∧
    ({ u with addresses := [{ a with primary := false }] } : User).address = none := by
  constructor
  · rw [User.address, h]
    cases hp : a.primary <;> cases ha : a.active <;>
      simp [List.find?, hp, ha]
  · simp [User.address, List.find?]

/-- Witness for C6 at the address of the tests ("123 Main Street",
primary and active). -/
theorem address_accessor_primary_active_witness :
    (({ userA with addresses :=
        [{ address1 := "123 Main Street", city := "Anytown", state := "WI",
           primary := true, active := true }] } : User).address
      = some { address1 := "123 Main Street", city := "Anytown", state := "WI",
               primary := true, active := true }
      ↔ (({ address1 := "123 Main Street", city := "Anytown", state := "WI",
             primary := true, active := true } : Address).primary = true ∧
         ({ address1 := "123 Main Street", city := "Anytown", state := "WI",
             primary := true, active := true } : Address).active = true)) ∧
    ({ { userA with addresses :=
          [{ address1 := "123 Main Street", city := "Anytown", state := "WI",
             primary := true, active := true }] } with
        addresses := [{ ({ address1 := "123 Main Street", city := "Anytown",
                            state := "WI", primary := true, active := true } : Address)
                        with primary := false }] } : User).address = none :=
  address_accessor_primary_active
    { userA with addresses :=
        [{ address1 := "123 Main Street", city := "Anytown", state := "WI",
           primary := true, active := true }] }
    { address1 := "123 Main Street", city := "Anytown", state := "WI",
      primary := true, active := true }
    rfl

/-- C7: an authenticated GET on fhir/ValueSet/<resource_id> either finds a
stored ValueSet with that resource_id and answers 200 with its FHIR JSON
body and a Location header at the resource's own URL, or no stored ValueSet
has that resource_id and the route answers 404. -/
theorem get_valueset_route_spec (store : List ValueSet) (rid : String) :
    (∃ v, v ∈ store ∧ v.resource_id = rid ∧
      get_valueset store true rid =
        { status_code := 200, body := some v.fhir_json,
          location := some (url_for_get_valueset rid) }) ∨
    ((∀ v ∈ store, v.resource_id ≠ rid) ∧
      get_valueset store true rid =
        { status_code := 404, body := none, location := none }) := by
  cases hf : store.find? (fun v => v.resource_id == rid) with
  | some v =>
    have hv : v.resource_id = rid := by simpa using List.find?_some hf
    exact Or.inl ⟨v, List.mem_of_find?_eq_some hf, hv,
      by simp [get_valueset, hf, hv]⟩
  | none =>
    refine Or.inr ⟨?_, by simp [get_valueset, hf]⟩
    intro v hv
    simpa using List.find?_eq_none.mp hf v hv

/-- C8: exactly one initialized Role and exactly one initialized AppGroup
carry the default=true flag, and user creation never modifies the role or
app-group tables, so the filter_by(default=True).first() fallback stays
well-defined. -/
theorem unique_default_invariant :
    initialize_roles.countP (fun r => r.default) = 1 ∧
    initialize_app_groups.countP (fun g => g.default) = 1 ∧
    ∀ db uid salt pw ra ga,
      (create_user db uid salt pw ra ga).snd.roles = db.roles ∧
      (create_user db uid salt pw ra ga).snd.app_groups = db.app_groups :=
  ⟨by decide, by decide, fun _ _ _ _ _ _ => ⟨rfl, rfl⟩⟩
